import Mathlib

/-!
Verification of the window save/restore tool `wmsr.py`.

The source is shallowly embedded: each Python function is translated to a
Lean function over explicit data.  The X11 connection (the `ewmh` adapter)
is modelled by recording the mutation requests a function issues as a list
of `AdapterCall` values, and an uncaught Python exception is modelled by the
`error` field of `RunResult` being `some msg`.  Printed diagnostic lines are
recorded in the `logs` field.  The JSON text layer (`json.dumps` and
`json.load` from the Python standard library) is external to the program;
it is treated as an inverse pair, so encoding and decoding are modelled at
the level of the structural document (`JVal`/`JObj` values).
-/

/-- The `_NET_WM_STATE_MAXIMIZED_VERT` atom name (class attribute of `WmWindow`). -/
def MAXIMIZED_VERT : String := "_NET_WM_STATE_MAXIMIZED_VERT"

/-- The `_NET_WM_STATE_MAXIMIZED_HORZ` atom name (class attribute of `WmWindow`). -/
def MAXIMIZED_HORZ : String := "_NET_WM_STATE_MAXIMIZED_HORZ"

/-- `WmWindow.MAXIMIZED_STATES`, the two-element set of maximize tags.
The Python set is modelled as a list; membership is all that is used. -/
def MAXIMIZED_STATES : List String := [MAXIMIZED_VERT, MAXIMIZED_HORZ]

/-- `WmWindowPersister.ACTION_REMOVE`. -/
def ACTION_REMOVE : Nat := 0

/-- `WmWindowPersister.ACTION_ADD`. -/
def ACTION_ADD : Nat := 1

/-- `WmWindowPersister.ACTION_TOGGLE`. -/
def ACTION_TOGGLE : Nat := 2

/-- A tag argument of `ewmh.setWmState`: either a state-atom name, or the
literal `0` filler the source appends (`states_list = list(states) + [0]`). -/
inductive StateArg where
  | tag (s : String)
  | zero
deriving DecidableEq

/-- A mutation request issued to the window-server adapter.  Read-only
queries are not recorded; the claims only concern mutations. -/
inductive AdapterCall where
  | setWmState (winId : Nat) (action : Nat) (arg1 arg2 : StateArg)
  | moveResize (winId : Nat) (x y w h : Int)
  | flush
deriving DecidableEq

/-- The snapshot fields of `WmWindow` (`__init__`, lines 57-74).  The `win`
handle itself is only an adapter capability and carries no further data, so
it is represented by `id`.  `state` is a Python set of strings, modelled as
a list whose order is irrelevant; `geometry` is `[x, y, width, height]`. -/
structure WmWindow where
  id : Nat
  type : List String
  state : List String
  name : String
  geometry : List Int
deriving DecidableEq

/-- Result of running a piece of the program: the adapter mutation calls it
issued in order, the lines it printed, and `some msg` when it terminated by
an uncaught Python exception (`none` when it returned normally). -/
structure RunResult where
  calls : List AdapterCall
  logs : List String
  error : Option String
deriving DecidableEq

/-- `s.intersection(MAXIMIZED_STATES)` for a state set `s`. -/
def maximizedIntersection (s : List String) : List String :=
  s.filter (fun t => decide (t ∈ MAXIMIZED_STATES))

/-- `states_list = list(states) + [0]` followed by taking `states_list[0]`
and `states_list[1]`, as the source does before each `setWmState` call. -/
def paddedArgs (states : List String) : StateArg × StateArg :=
  let l := states.map StateArg.tag ++ [StateArg.zero]
  (l.getD 0 StateArg.zero, l.getD 1 StateArg.zero)

/-- The state tags carried by the two tag arguments of a `setWmState` call. -/
def argTags : StateArg → StateArg → List String
  | StateArg.tag a, StateArg.tag b => [a, b]
  | StateArg.tag a, StateArg.zero => [a]
  | StateArg.zero, StateArg.tag b => [b]
  | StateArg.zero, StateArg.zero => []

/-- `WmWindow.move` (lines 99-128).  Mirrors the source exactly:
if the requested geometry equals the live geometry it returns at once;
otherwise it removes the live maximize tags (if any), unpacks the geometry
(`x, y, w, h = geometry`, an uncaught `ValueError` unless it has exactly
four elements), issues the move/resize, and then — reusing the `states`
variable when no target `state` is supplied — adds back the maximize tags
of the target state (or, with `state=None`, of the live state). -/
def WmWindow.move (self : WmWindow) (geometry : List Int)
    (state : Option (List String)) : RunResult :=
  if geometry = self.geometry then
    ⟨[], [toString self.id ++ ": same geometry, not moving"], none⟩
  else
    let states := maximizedIntersection self.state
    let removeCalls : List AdapterCall :=
      if 0 < states.length then
        [AdapterCall.setWmState self.id ACTION_REMOVE
          (paddedArgs states).1 (paddedArgs states).2]
      else []
    let removeLogs : List String :=
      if 0 < states.length then
        [toString self.id ++ ": removing [" ++ String.intercalate ", " states ++ "]"]
      else []
    match geometry with
    | [x, y, w, h] =>
      let states2 :=
        match state with
        | some st => maximizedIntersection st
        | none => states
      let addCalls : List AdapterCall :=
        if 0 < states2.length then
          [AdapterCall.setWmState self.id ACTION_ADD
            (paddedArgs states2).1 (paddedArgs states2).2]
        else []
      let addLogs : List String :=
        if 0 < states2.length then
          [toString self.id ++ ": restoring [" ++ String.intercalate ", " states2 ++ "]"]
        else []
      ⟨removeCalls ++ AdapterCall.moveResize self.id x y w h :: addCalls,
       removeLogs ++
         (toString self.id ++ ": moving to " ++ toString x ++ ", " ++ toString y ++
           ", " ++ toString w ++ ", " ++ toString h) :: addLogs,
       none⟩
    | _ => ⟨removeCalls, removeLogs, some "ValueError: cannot unpack geometry"⟩

/-- A JSON value of the shapes this program reads and writes: integers,
strings, arrays of integers (geometries) and arrays of strings (type and
state lists).  `json.load` can, in general, produce other shapes; the
claims only concern documents made of these. -/
inductive JVal where
  | num (n : Int)
  | str (s : String)
  | numArr (xs : List Int)
  | strArr (xs : List String)
deriving DecidableEq

/-- A decoded JSON object: key/value pairs in document order. -/
abbrev JObj := List (String × JVal)

/-- Dictionary access `o[k]`: the value at the first matching key, or
`none` (a Python `KeyError`) when the key is absent. -/
def getField (o : JObj) (k : String) : Option JVal :=
  (o.find? (fun kv => kv.1 == k)).map (fun kv => kv.2)

/-- Models Python `int(s)` on the decimal string keys this program writes:
an optional minus sign followed by digits.  (Python `int` also strips
whitespace and accepts underscores and a plus sign; the persisted keys are
always canonical decimals, produced by `str` on an integer.) -/
def pyInt (s : String) : Option Int :=
  match s.data with
  | [] => none
  | '-' :: ds =>
    if !ds.isEmpty && ds.all Char.isDigit then
      some (-(ds.foldl (fun a c => a * 10 + (c.toNat - 48)) 0 : Nat))
    else none
  | ds =>
    if !ds.isEmpty && ds.all Char.isDigit then
      some ((ds.foldl (fun a c => a * 10 + (c.toNat - 48)) 0 : Nat))
    else none

/-- `WmWindow.serializer` (lines 81-97) applied to a `WmWindow`: a dict of
every instance attribute except the `win` handle, in attribute insertion
order (`id`, `type`, `state`, `geometry`, `name`); the `state` set is
serialized through the `isinstance(obj, set)` branch as a list. -/
def WmWindow.serializer (w : WmWindow) : JObj :=
  [("id", JVal.num (w.id : Int)),
   ("type", JVal.strArr w.type),
   ("state", JVal.strArr w.state),
   ("geometry", JVal.numArr w.geometry),
   ("name", JVal.str w.name)]

/-- `WmWindowPersister.dumps` (lines 151-155) at the document level:
`json.dumps` turns the integer keys of `self.windows` into their decimal
string form and serializes each window with `WmWindow.serializer`. -/
def dumps (windows : List (Nat × WmWindow)) : List (String × JObj) :=
  windows.map (fun p => (toString p.1, WmWindow.serializer p.2))

/-- Lookup of a window entry in a decoded persisted document by its
decimal-string key. -/
def docLookup (doc : List (String × JObj)) (k : String) : Option JObj :=
  (doc.find? (fun p => p.1 == k)).map (fun p => p.2)

/-- The fields of one persisted window entry, for field-by-field comparison
with the snapshot it came from. -/
structure DecodedFields where
  id : Int
  type : List String
  state : List String
  name : String
  geometry : List Int
deriving DecidableEq

/-- Reading the five snapshot fields back out of a decoded entry. -/
def decodeEntry (o : JObj) : Option DecodedFields :=
  match getField o "id", getField o "type", getField o "state",
        getField o "name", getField o "geometry" with
  | some (JVal.num i), some (JVal.strArr t), some (JVal.strArr s),
    some (JVal.str n), some (JVal.numArr g) => some ⟨i, t, s, n, g⟩
  | _, _, _, _, _ => none

/-- A persisted entry has the shape `restore` needs to finish without an
exception: a `geometry` field holding four integers and a `state` field
holding a list of strings. -/
def entryWellFormed (e : JObj) : Bool :=
  (match getField e "geometry" with
   | some (JVal.numArr g) => g.length == 4
   | _ => false) &&
  (match getField e "state" with
   | some (JVal.strArr _) => true
   | _ => false)

/-- One iteration of the `restore` loop (lines 204-212) for entry `(k, e)`
of the decoded document, against the live window set `live` (the mapping
`self.windows`): parse the key with `int`, look the integer up among the
live ids, skip with a message when absent, and otherwise evaluate
`win["geometry"]` and `set(win["state"])` (in that argument order, each a
`KeyError` when missing) and call `move`.  The inner `id` field of the
entry is never read.  Entries whose `geometry`/`state` fields hold shapes
the codec never writes are modelled as an uncaught `TypeError`. -/
def restoreEntry (live : List (Nat × WmWindow)) (k : String) (e : JObj) : RunResult :=
  match pyInt k with
  | none => ⟨[], [], some "ValueError: invalid literal for int"⟩
  | some iid =>
    match live.find? (fun q => (q.1 : Int) == iid) with
    | none => ⟨[], [k ++ ": not found, skipping"], none⟩
    | some p =>
      match getField e "geometry" with
      | none => ⟨[], [], some "KeyError: geometry"⟩
      | some gv =>
        match getField e "state" with
        | none => ⟨[], [], some "KeyError: state"⟩
        | some sv =>
          match gv, sv with
          | JVal.numArr g, JVal.strArr st => p.2.move g (some st)
          | _, _ => ⟨[], [], some "TypeError"⟩

/-- The `for id in windows` loop of `restore`: entries are processed in
document order; an uncaught exception aborts the loop (and the whole
process), keeping the calls and prints made so far. -/
def restoreLoop (live : List (Nat × WmWindow)) : List (String × JObj) → RunResult
  | [] => ⟨[], [], none⟩
  | (k, e) :: rest =>
    match (restoreEntry live k e).error with
    | some err => ⟨(restoreEntry live k e).calls, (restoreEntry live k e).logs, some err⟩
    | none =>
      ⟨(restoreEntry live k e).calls ++ (restoreLoop live rest).calls,
       (restoreEntry live k e).logs ++ (restoreLoop live rest).logs,
       (restoreLoop live rest).error⟩

/-- `WmWindowPersister.restore` (lines 194-213).  `decoded` is the result
of `read_data`: `none` when the file could not be read or was not valid
JSON (both caught and reported, after which `restore` returns `False`
without touching the adapter), otherwise the decoded document.  `live` is
the captured live window set (`self.windows`).  After a loop that finishes
without an exception, the display is flushed. -/
def restore (decoded : Option (List (String × JObj)))
    (live : List (Nat × WmWindow)) : RunResult :=
  match decoded with
  | none => ⟨[], [], none⟩
  | some persisted =>
    match (restoreLoop live persisted).error with
    | some err =>
      ⟨(restoreLoop live persisted).calls,
       ("Loaded state of " ++ toString persisted.length ++ " windows")
         :: (restoreLoop live persisted).logs,
       some err⟩
    | none =>
      ⟨(restoreLoop live persisted).calls ++ [AdapterCall.flush],
       ("Loaded state of " ++ toString persisted.length ++ " windows")
         :: (restoreLoop live persisted).logs,
       none⟩

/-- What the adapter yields for one enumerated window handle during
capture: either the full property record, or an `Xlib` error because the
window vanished between enumeration and the property reads. -/
inductive ReadResult where
  | ok (w : WmWindow)
  | vanished
deriving DecidableEq

/-- `WmWindowPersister.get_windows` (lines 143-149): build a `WmWindow`
for every enumerated handle and keep it when `filter` is false or its type
list is exactly `["_NET_WM_WINDOW_TYPE_NORMAL"]` (`len(w.type) == 1 and
w.type[0] == ...`, with the short-circuit guarding the index).  No
exception handler surrounds the property reads, so a vanished window
propagates as an uncaught `Xlib` error. -/
def get_windows : List ReadResult → Bool → Except String (List (Nat × WmWindow))
  | [], _ => Except.ok []
  | ReadResult.vanished :: _, _ => Except.error "Xlib.error.BadWindow"
  | ReadResult.ok w :: rest, filter =>
    match get_windows rest filter with
    | Except.error e => Except.error e
    | Except.ok tail =>
      if !filter || (w.type.length == 1 &&
          (w.type.getD 0 "" == "_NET_WM_WINDOW_TYPE_NORMAL")) then
        Except.ok ((w.id, w) :: tail)
      else
        Except.ok tail

/-- `DEFAULT_STATE_PATH` (line 216): `os.path.join` of the home directory
and `.windows.json`. -/
def DEFAULT_STATE_PATH (home : String) : String :=
  home ++ "/.windows.json"

/-- `get_options` (lines 225-239): drop the program name, reject an
argument count of 0 or more than 2, reject a verb other than `save` or
`restore`, and default the state path when only the verb is given.  On
rejection the source returns `(False, False)`, modelled as `none`. -/
def get_options (home : String) (argv : List String) : Option (String × String) :=
  match argv with
  | [] => none
  | _ :: args =>
    if args.length < 1 ∨ 2 < args.length then none
    else
      match args with
      | [] => none
      | action :: rest =>
        if action = "save" ∨ action = "restore" then
          some (action,
            match rest with
            | [] => DEFAULT_STATE_PATH home
            | p :: _ => p)
        else none

/-- The `__main__` block (lines 242-254), as exit code plus whether the
usage message was printed: a failed `get_options` prints usage and calls
`sys.exit(1)`; otherwise `save`/`restore` runs and its boolean result is
ignored, so the process ends normally with exit code 0. -/
def mainRun (home : String) (argv : List String) : Nat × Bool :=
  match get_options home argv with
  | none => (1, true)
  | some _ => (0, false)

/-! ## Theorems -/

/-- The two `setWmState` tag arguments carry exactly the first two listed
tags, and all of them when the list has at most two elements. -/
theorem mem_argTags_paddedArgs (l : List String) (h : l.length ≤ 2) (t : String) :
    t ∈ argTags (paddedArgs l).1 (paddedArgs l).2 ↔ t ∈ l := by
  match l with
  | [] => simp [paddedArgs, argTags]
  | [a] => simp [paddedArgs, argTags, List.getD]
  | [a, b] => simp [paddedArgs, argTags, List.getD]
  | a :: b :: c :: l' => simp at h

/-- A maximize intersection of a duplicate-free state set has at most two
elements, because it is a duplicate-free sublist of the two maximize tags. -/
theorem maximizedIntersection_length_le (s : List String) (h : s.Nodup) :
    (maximizedIntersection s).length ≤ 2 := by
  have hnd : (maximizedIntersection s).Nodup := h.filter _
  have hsub : maximizedIntersection s ⊆ MAXIMIZED_STATES := by
    intro a ha
    simp only [maximizedIntersection, List.mem_filter, decide_eq_true_eq] at ha
    exact ha.2
  have hle := (hnd.subperm hsub).length_le
  simpa [MAXIMIZED_STATES] using hle

/-- Claim C1: for a matched window whose live maximize intersection is
non-empty and whose target geometry (a well-formed 4-tuple) differs from
the live geometry, `move` with the persisted target state issues exactly
one remove-state call carrying the live maximize tags, then one move/resize
with the target geometry, then an add-state call exactly when the target
state contains a maximize tag, carrying the target maximize tags — and no
other adapter mutation.  Both state sets are Python sets, hence
duplicate-free. -/
theorem c1_maximize_sequencing (self : WmWindow) (ts : List String) (x y w h : Int)
    (hnd : self.state.Nodup) (hts : ts.Nodup)
    (hmax : maximizedIntersection self.state ≠ [])
    (hne : [x, y, w, h] ≠ self.geometry) :
    (self.move [x, y, w, h] (some ts)).calls =
      AdapterCall.setWmState self.id ACTION_REMOVE
          (paddedArgs (maximizedIntersection self.state)).1
          (paddedArgs (maximizedIntersection self.state)).2
        :: AdapterCall.moveResize self.id x y w h
        :: (if 0 < (maximizedIntersection ts).length then
              [AdapterCall.setWmState self.id ACTION_ADD
                (paddedArgs (maximizedIntersection ts)).1
                (paddedArgs (maximizedIntersection ts)).2]
            else [])
    ∧ (self.move [x, y, w, h] (some ts)).error = none
    ∧ (∀ t, t ∈ argTags (paddedArgs (maximizedIntersection self.state)).1
              (paddedArgs (maximizedIntersection self.state)).2
            ↔ t ∈ maximizedIntersection self.state)
    ∧ (∀ t, t ∈ argTags (paddedArgs (maximizedIntersection ts)).1
              (paddedArgs (maximizedIntersection ts)).2
            ↔ t ∈ maximizedIntersection ts) := by
  have hlen : 0 < (maximizedIntersection self.state).length :=
    List.length_pos.mpr hmax
  refine ⟨?_, ?_, ?_, ?_⟩
  · simp [WmWindow.move, hne, hlen]
  · simp [WmWindow.move, hne]
  · exact mem_argTags_paddedArgs _ (maximizedIntersection_length_le _ hnd)
  · exact mem_argTags_paddedArgs _ (maximizedIntersection_length_le _ hts)

/-- Concrete instance of `c1_maximize_sequencing`: a vertically maximized
live window moved to a new geometry with a horizontally maximized target. -/
theorem c1_maximize_sequencing_witness :
    maximizedIntersection [MAXIMIZED_VERT] ≠ []
    ∧ ([5, 5, 640, 480] : List Int) ≠ [0, 0, 800, 600]
    ∧ (WmWindow.move ⟨7, ["_NET_WM_WINDOW_TYPE_NORMAL"], [MAXIMIZED_VERT], "ed",
        [0, 0, 800, 600]⟩ [5, 5, 640, 480] (some [MAXIMIZED_HORZ])).error = none :=
  ⟨by decide, by decide,
    (c1_maximize_sequencing
      ⟨7, ["_NET_WM_WINDOW_TYPE_NORMAL"], [MAXIMIZED_VERT], "ed", [0, 0, 800, 600]⟩
      [MAXIMIZED_HORZ] 5 5 640 480 (by decide) (by decide) (by decide)
      (by decide)).2.1⟩

/-- Claim C2: if the target geometry equals the live geometry, `move` is a
no-op — zero adapter move/resize and zero state-change calls — regardless of
any difference between the target state and the live state. -/
theorem c2_same_geometry_noop (self : WmWindow) (st : Option (List String)) :
    (self.move self.geometry st).calls = [] ∧ (self.move self.geometry st).error = none := by
  simp [WmWindow.move]

/-- Claim C3 is false on the code: with no target state supplied, `move`
reuses the `states` variable holding the live maximize tags, so after the
move it does issue an add-state request.  Concrete run: a live window that
is vertically maximized, moved to a different geometry with `state=None`,
re-adds `_NET_WM_STATE_MAXIMIZED_VERT`. -/
theorem c3_counterexample :
    AdapterCall.setWmState 1 ACTION_ADD (StateArg.tag MAXIMIZED_VERT) StateArg.zero ∈
      (WmWindow.move ⟨1, ["_NET_WM_WINDOW_TYPE_NORMAL"], [MAXIMIZED_VERT], "ed",
        [0, 0, 800, 600]⟩ [10, 20, 800, 600] none).calls := by
  decide

/-- Claim C3 amended: when the caller supplies no target state, the set of
tags to re-add defaults to the live maximize set, not to the empty set —
after the move/resize an add-state request carrying the live maximize tags
is issued precisely when the live window had maximize tags. -/
theorem c3_default_state_amended (self : WmWindow) (x y w h : Int)
    (hne : [x, y, w, h] ≠ self.geometry) :
    (self.move [x, y, w, h] none).calls =
      (if 0 < (maximizedIntersection self.state).length then
        [AdapterCall.setWmState self.id ACTION_REMOVE
          (paddedArgs (maximizedIntersection self.state)).1
          (paddedArgs (maximizedIntersection self.state)).2]
      else [])
      ++ AdapterCall.moveResize self.id x y w h
      :: (if 0 < (maximizedIntersection self.state).length then
            [AdapterCall.setWmState self.id ACTION_ADD
              (paddedArgs (maximizedIntersection self.state)).1
              (paddedArgs (maximizedIntersection self.state)).2]
          else [])
    ∧ (self.move [x, y, w, h] none).error = none := by
  constructor
  · simp [WmWindow.move, hne]
  · simp [WmWindow.move, hne]

/-- Concrete instance of `c3_default_state_amended`. -/
theorem c3_default_state_amended_witness :
    ([10, 20, 800, 600] : List Int) ≠ [0, 0, 800, 600]
    ∧ (WmWindow.move ⟨1, ["_NET_WM_WINDOW_TYPE_NORMAL"], [MAXIMIZED_VERT], "ed",
        [0, 0, 800, 600]⟩ [10, 20, 800, 600] none).error = none :=
  ⟨by decide,
    (c3_default_state_amended
      ⟨1, ["_NET_WM_WINDOW_TYPE_NORMAL"], [MAXIMIZED_VERT], "ed", [0, 0, 800, 600]⟩
      10 20 800 600 (by decide)).2⟩

/-- A `move` whose geometry tuple has exactly four elements never raises:
both the early-return branch and the full sequence end normally. -/
theorem move_error_none (self : WmWindow) (g : List Int)
    (st : Option (List String)) (hg : g.length = 4) :
    (self.move g st).error = none := by
  by_cases hgeq : g = self.geometry
  · simp [WmWindow.move, hgeq]
  · match g, hg with
    | [a, b, c, d], _ => simp [WmWindow.move, hgeq]

/-- Processing one well-formed entry (parsable key, four-integer geometry,
string-list state) never raises, whether or not the key is live. -/
theorem restoreEntry_error_none (live : List (Nat × WmWindow)) (k : String) (e : JObj)
    (hk : (pyInt k).isSome = true) (hwf : entryWellFormed e = true) :
    (restoreEntry live k e).error = none := by
  rcases hpy : pyInt k with _ | iid
  · rw [hpy] at hk; simp at hk
  · rcases hfind : live.find? (fun q => (q.1 : Int) == iid) with _ | p
    · simp [restoreEntry, hpy, hfind]
    · unfold entryWellFormed at hwf
      rcases hg : getField e "geometry" with _ | gv
      · rw [hg] at hwf; simp at hwf
      · rcases hs : getField e "state" with _ | sv
        · rw [hg, hs] at hwf
          rcases gv with n | s | xs | xs <;> simp at hwf
        · rw [hg, hs] at hwf
          rcases gv with n | s | xs | xs <;> rcases sv with m | t | ys | ys <;>
            simp at hwf
          simp only [restoreEntry, hpy, hfind, hg, hs]
          exact move_error_none _ _ _ hwf

/-- When every entry of the document processes without an exception, the
restore loop visits every entry in order and concatenates the calls and
prints of each. -/
theorem restoreLoop_of_no_error (live : List (Nat × WmWindow))
    (persisted : List (String × JObj))
    (h : ∀ p ∈ persisted, (restoreEntry live p.1 p.2).error = none) :
    restoreLoop live persisted =
      ⟨(persisted.map (fun p => (restoreEntry live p.1 p.2).calls)).flatten,
       (persisted.map (fun p => (restoreEntry live p.1 p.2).logs)).flatten,
       none⟩ := by
  induction persisted with
  | nil => rfl
  | cons p rest ih =>
    have hp : (restoreEntry live p.1 p.2).error = none := h p (by simp)
    have hrest := ih (fun q hq => h q (by simp [hq]))
    rcases p with ⟨k, e⟩
    simp only [restoreLoop]
    rw [hp, hrest]
    simp

/-- Claim C4 (drift tolerance): for a document of well-formed snapshot
entries, an entry whose key is absent from the live set is skipped with the
"not found, skipping" message, contributes no adapter calls and no failure,
and the whole restore still processes every entry and ends with the flush. -/
theorem c4_drift_tolerance (persisted : List (String × JObj))
    (live : List (Nat × WmWindow))
    (hwf : ∀ p ∈ persisted, (pyInt p.1).isSome = true ∧ entryWellFormed p.2 = true)
    (k0 : String) (e0 : JObj) (_hmem : (k0, e0) ∈ persisted)
    (i0 : Int) (hk : pyInt k0 = some i0)
    (habs : live.find? (fun q => (q.1 : Int) == i0) = none) :
    restore (some persisted) live =
      ⟨(persisted.map (fun p => (restoreEntry live p.1 p.2).calls)).flatten
         ++ [AdapterCall.flush],
       ("Loaded state of " ++ toString persisted.length ++ " windows")
         :: (persisted.map (fun p => (restoreEntry live p.1 p.2).logs)).flatten,
       none⟩
    ∧ restoreEntry live k0 e0 = ⟨[], [k0 ++ ": not found, skipping"], none⟩ := by
  have hall : ∀ p ∈ persisted, (restoreEntry live p.1 p.2).error = none :=
    fun p hp => restoreEntry_error_none live p.1 p.2 (hwf p hp).1 (hwf p hp).2
  have hloop := restoreLoop_of_no_error live persisted hall
  constructor
  · simp only [restore]
    rw [hloop]
  · simp [restoreEntry, hk, habs]

/-- Concrete instance of `c4_drift_tolerance`: a one-entry document whose
key 42 has no live window (the only live window has id 7). -/
theorem c4_drift_tolerance_witness :
    pyInt "42" = some 42
    ∧ restoreEntry [(7, ⟨7, ["_NET_WM_WINDOW_TYPE_NORMAL"], [], "a", [0, 0, 1, 1]⟩)]
        "42" [("id", JVal.num 42), ("geometry", JVal.numArr [1, 2, 3, 4]),
              ("state", JVal.strArr [])]
      = ⟨[], ["42: not found, skipping"], none⟩ :=
  ⟨by decide,
    (c4_drift_tolerance
      [("42", [("id", JVal.num 42), ("geometry", JVal.numArr [1, 2, 3, 4]),
               ("state", JVal.strArr [])])]
      [(7, ⟨7, ["_NET_WM_WINDOW_TYPE_NORMAL"], [], "a", [0, 0, 1, 1]⟩)]
      (by decide) "42"
      [("id", JVal.num 42), ("geometry", JVal.numArr [1, 2, 3, 4]),
       ("state", JVal.strArr [])]
      (by decide) 42 (by decide) (by decide)).2⟩

/-- In an encoded document whose decimal keys are pairwise distinct, the
key of a captured window looks up exactly the serialized form of that
window. -/
theorem docLookup_dumps (C : List (Nat × WmWindow))
    (hkeys : (C.map (fun p => toString p.1)).Nodup)
    (i : Nat) (w : WmWindow) (hmem : (i, w) ∈ C) :
    docLookup (dumps C) (toString i) = some (WmWindow.serializer w) := by
  induction C with
  | nil => simp at hmem
  | cons q rest ih =>
    rcases q with ⟨j, v⟩
    have hdc : dumps ((j, v) :: rest) =
        (toString j, WmWindow.serializer v) :: dumps rest := rfl
    rcases List.mem_cons.mp hmem with heq | htail
    · rcases heq with ⟨rfl, rfl⟩  -- ⊢ uses the head entry
      unfold docLookup
      rw [hdc, List.find?_cons_of_pos _ (by simp)]
      rfl
    · by_cases hji : toString j = toString i
      · exfalso
        have hmm : toString i ∈ rest.map (fun p => toString p.1) :=
          List.mem_map.mpr ⟨(i, w), htail, rfl⟩
        have hnotin : toString j ∉ rest.map (fun p => toString p.1) := by
          simpa using (List.nodup_cons.mp hkeys).1
        exact hnotin (hji ▸ hmm)
      · unfold docLookup
        rw [hdc, List.find?_cons_of_neg]
        · exact ih (List.nodup_cons.mp hkeys).2 htail
        · simp [hji]

/-- Claim C5 (round-trip): decoding the encoded form of a well-formed
capture yields each snapshot back field-for-field.  The keys of a capture
are the window ids, unique by construction, so their decimal forms are
distinct; looking such a key up in the decoded document yields the entry
serialized from the snapshot, and reading the five fields back out of that
entry gives exactly the id, type, state, name and geometry of the snapshot
(the state list is recovered elementwise, so in particular as the same
set). -/
theorem c5_roundtrip (C : List (Nat × WmWindow))
    (hkeys : (C.map (fun p => toString p.1)).Nodup)
    (i : Nat) (w : WmWindow) (hmem : (i, w) ∈ C) :
    docLookup (dumps C) (toString i) = some (WmWindow.serializer w)
    ∧ decodeEntry (WmWindow.serializer w) =
        some ⟨(w.id : Int), w.type, w.state, w.name, w.geometry⟩ :=
  ⟨docLookup_dumps C hkeys i w hmem, by rfl⟩

/-- Concrete instance of `c5_roundtrip` on a two-window capture. -/
theorem c5_roundtrip_witness :
    docLookup (dumps [(3, ⟨3, ["_NET_WM_WINDOW_TYPE_NORMAL"], [MAXIMIZED_HORZ], "a",
        [0, 0, 10, 10]⟩), (4, ⟨4, ["_NET_WM_WINDOW_TYPE_NORMAL"], [], "b",
        [5, 5, 20, 20]⟩)]) (toString 3)
      = some (WmWindow.serializer
          ⟨3, ["_NET_WM_WINDOW_TYPE_NORMAL"], [MAXIMIZED_HORZ], "a", [0, 0, 10, 10]⟩) :=
  (c5_roundtrip
    [(3, ⟨3, ["_NET_WM_WINDOW_TYPE_NORMAL"], [MAXIMIZED_HORZ], "a", [0, 0, 10, 10]⟩),
     (4, ⟨4, ["_NET_WM_WINDOW_TYPE_NORMAL"], [], "b", [5, 5, 20, 20]⟩)]
    (by decide) 3
    ⟨3, ["_NET_WM_WINDOW_TYPE_NORMAL"], [MAXIMIZED_HORZ], "a", [0, 0, 10, 10]⟩
    (by decide)).1

/-- The filter condition of `get_windows` holds exactly for the type list
that is the single normal tag. -/
theorem type_check_iff (l : List String) :
    ((l.length == 1 && (l.getD 0 "" == "_NET_WM_WINDOW_TYPE_NORMAL")) = true)
      ↔ l = ["_NET_WM_WINDOW_TYPE_NORMAL"] := by
  match l with
  | [] => simp
  | [a] => simp [List.getD]
  | a :: b :: l' => simp

/-- Claim C6 (filtering): on a fully readable window list, capture with
filtering enabled returns exactly the windows whose type list is the
single-element normal tag, keyed by their ids; any other type list (empty,
multi-element, or a different tag) is excluded. -/
theorem c6_filter_normal (ws : List WmWindow) :
    get_windows (ws.map ReadResult.ok) true =
      Except.ok ((ws.filter (fun w => w.type.length == 1 &&
          (w.type.getD 0 "" == "_NET_WM_WINDOW_TYPE_NORMAL"))).map (fun w => (w.id, w)))
    ∧ ∀ i w, ((i, w) ∈ (ws.filter (fun w => w.type.length == 1 &&
          (w.type.getD 0 "" == "_NET_WM_WINDOW_TYPE_NORMAL"))).map (fun w => (w.id, w))
        ↔ (w ∈ ws ∧ i = w.id ∧ w.type = ["_NET_WM_WINDOW_TYPE_NORMAL"])) := by
  constructor
  · induction ws with
    | nil => rfl
    | cons w rest ih =>
      simp only [List.map_cons, get_windows, ih, Bool.not_true, Bool.false_or]
      rw [List.filter_cons]
      cases hw : (w.type.length == 1 && (w.type.getD 0 "" == "_NET_WM_WINDOW_TYPE_NORMAL"))
      · simp [hw]
      · simp [hw]
  · intro i w
    simp only [List.mem_map, List.mem_filter]
    constructor
    · rintro ⟨w', ⟨hw', hcheck⟩, heq⟩
      rcases Prod.mk.injEq .. ▸ heq with ⟨rfl, rfl⟩
      exact ⟨hw', rfl, (type_check_iff _).mp hcheck⟩
    · rintro ⟨hw, rfl, htype⟩
      exact ⟨w, ⟨hw, (type_check_iff _).mpr htype⟩, rfl⟩

/-- Claim C7 is false on the code: a syntactically valid persisted file
whose entry lacks the `geometry` field is not reported as a decode/shape
error — the dictionary access `win["geometry"]` raises an uncaught
`KeyError` (crashing the process) as soon as the entry key matches a live
window.  The other half of the claim does hold: no adapter mutation call is
issued. -/
theorem c7_counterexample :
    (restore (some [("123", [("id", JVal.num 123)])])
        [(123, ⟨123, ["_NET_WM_WINDOW_TYPE_NORMAL"], [], "Editor",
          [100, 100, 800, 600]⟩)]).error = some "KeyError: geometry"
    ∧ (restore (some [("123", [("id", JVal.num 123)])])
        [(123, ⟨123, ["_NET_WM_WINDOW_TYPE_NORMAL"], [], "Editor",
          [100, 100, 800, 600]⟩)]).calls = [] := by
  constructor <;> rfl

/-- Claim C7 amended: for a valid-JSON file whose only entry lacks
`geometry` and whose key matches a live window, restore issues no adapter
mutation calls (and no flush) but terminates with an uncaught `KeyError`
rather than a reported decode/shape error. -/
theorem c7_missing_geometry_amended (live : List (Nat × WmWindow)) (k : String)
    (e : JObj) (iid : Int) (p : Nat × WmWindow)
    (hk : pyInt k = some iid)
    (hfind : live.find? (fun q => (q.1 : Int) == iid) = some p)
    (hg : getField e "geometry" = none) :
    restore (some [(k, e)]) live =
      ⟨[], ["Loaded state of " ++ toString (1 : Nat) ++ " windows"],
       some "KeyError: geometry"⟩ := by
  have he : restoreEntry live k e = ⟨[], [], some "KeyError: geometry"⟩ := by
    simp [restoreEntry, hk, hfind, hg]
  have hloop : restoreLoop live [(k, e)] = ⟨[], [], some "KeyError: geometry"⟩ := by
    simp [restoreLoop, he]
  simp [restore, hloop]

/-- Concrete instance of `c7_missing_geometry_amended`. -/
theorem c7_missing_geometry_amended_witness :
    pyInt "123" = some 123
    ∧ restore (some [("123", [("id", JVal.num 123)])])
        [(123, ⟨123, ["_NET_WM_WINDOW_TYPE_NORMAL"], [], "x", [9, 9, 9, 9]⟩)] =
      ⟨[], ["Loaded state of " ++ toString (1 : Nat) ++ " windows"],
       some "KeyError: geometry"⟩ :=
  ⟨by decide,
    c7_missing_geometry_amended
      [(123, ⟨123, ["_NET_WM_WINDOW_TYPE_NORMAL"], [], "x", [9, 9, 9, 9]⟩)]
      "123" [("id", JVal.num 123)] 123
      (123, ⟨123, ["_NET_WM_WINDOW_TYPE_NORMAL"], [], "x", [9, 9, 9, 9]⟩)
      (by decide) (by decide) (by decide)⟩

/-- Claim C8 is false on the code: no exception handler surrounds the
property reads of capture, so a window that vanishes mid-read is not
dropped — the whole capture aborts with the `Xlib` error and even the
windows that were read successfully are lost. -/
theorem c8_counterexample :
    get_windows
      [ReadResult.ok ⟨1, ["_NET_WM_WINDOW_TYPE_NORMAL"], [], "a", [0, 0, 1, 1]⟩,
       ReadResult.vanished,
       ReadResult.ok ⟨3, ["_NET_WM_WINDOW_TYPE_NORMAL"], [], "c", [2, 2, 3, 3]⟩] true
      = Except.error "Xlib.error.BadWindow" := rfl

/-- Claim C8 amended: a property read failing because a window vanished
mid-read propagates as an uncaught exception — the capture aborts, no
capture set is produced, and the process crashes, instead of dropping the
vanished window and continuing. -/
theorem c8_vanished_amended (reads : List ReadResult) (filter : Bool)
    (h : ReadResult.vanished ∈ reads) :
    get_windows reads filter = Except.error "Xlib.error.BadWindow" := by
  induction reads with
  | nil => simp at h
  | cons r rest ih =>
    cases r with
    | vanished => rfl
    | ok w =>
      have hrest : ReadResult.vanished ∈ rest := by
        rcases List.mem_cons.mp h with h1 | h2
        · cases h1
        · exact h2
      simp [get_windows, ih hrest]

/-- Concrete instance of `c8_vanished_amended`. -/
theorem c8_vanished_amended_witness :
    ReadResult.vanished ∈ [ReadResult.vanished]
    ∧ get_windows [ReadResult.vanished] false = Except.error "Xlib.error.BadWindow" :=
  ⟨by decide, c8_vanished_amended [ReadResult.vanished] false (by decide)⟩

/-- Claim C9: `wmsr.py` exits with code 1 and prints the usage message
exactly when the verb is missing, unknown, or the positional argument
count after the program name is 0 or more than 2; with a valid verb and at
most one trailing argument it proceeds to `save`/`restore`, whose boolean
results are ignored, so the process exits 0 (in particular when windows
were merely skipped during restore). -/
theorem c9_cli_exit (home prog : String) (args : List String) :
    (mainRun home (prog :: args) = (1, true) ∨ mainRun home (prog :: args) = (0, false))
    ∧ (mainRun home (prog :: args) = (1, true) ↔
        (args = [] ∨ 2 < args.length ∨
          ∃ a rest, args = a :: rest ∧ a ≠ "save" ∧ a ≠ "restore")) := by
  rcases args with _ | ⟨a, rest⟩
  · simp [mainRun, get_options]
  · rcases rest with _ | ⟨b, rest2⟩
    · by_cases hs : a = "save" <;> by_cases hr : a = "restore" <;>
        simp [mainRun, get_options, hs, hr]
    · rcases rest2 with _ | ⟨c, rest3⟩
      · by_cases hs : a = "save" <;> by_cases hr : a = "restore" <;>
          simp [mainRun, get_options, hs, hr]
      · have h3 : 2 < (a :: b :: c :: rest3).length := by simp
        constructor
        · left
          simp [mainRun, get_options, h3]
        · constructor
          · intro _
            exact Or.inr (Or.inl h3)
          · intro _
            simp [mainRun, get_options, h3]

/-- Claim C10: restore matches a persisted entry to a live window solely
by parsing the top-level decimal key and looking the integer up among the
live ids; the inner `id` field of the entry is never consulted, so the
result of processing an entry is invariant under that field, and an entry
whose key matches a live window is applied to it even when the inner `id`
disagrees with the key. -/
theorem c10_key_matching :
    (∀ (live : List (Nat × WmWindow)) (k : String) (e : JObj) (v1 v2 : JVal),
      restoreEntry live k (("id", v1) :: e) = restoreEntry live k (("id", v2) :: e))
    ∧ (∀ (live : List (Nat × WmWindow)) (k : String) (iid : Int) (p : Nat × WmWindow)
        (g : List Int) (st : List String) (v : JVal),
      pyInt k = some iid →
      live.find? (fun q => (q.1 : Int) == iid) = some p →
      restoreEntry live k
          [("id", v), ("geometry", JVal.numArr g), ("state", JVal.strArr st)]
        = p.2.move g (some st)) := by
  have hgf : ∀ (v : JVal) (e : JObj) (fld : String), ("id" == fld) = false →
      getField (("id", v) :: e) fld = getField e fld := by
    intro v e fld h
    simp [getField, List.find?, h]
  constructor
  · intro live k e v1 v2
    unfold restoreEntry
    rw [hgf v1 e "geometry" (by decide), hgf v2 e "geometry" (by decide),
        hgf v1 e "state" (by decide), hgf v2 e "state" (by decide)]
  · intro live k iid p g st v hk hfind
    have h1 : getField [("id", v), ("geometry", JVal.numArr g),
        ("state", JVal.strArr st)] "geometry" = some (JVal.numArr g) := by
      simp [getField, List.find?]
    have h2 : getField [("id", v), ("geometry", JVal.numArr g),
        ("state", JVal.strArr st)] "state" = some (JVal.strArr st) := by
      simp [getField, List.find?]
    simp [restoreEntry, hk, hfind, h1, h2]

/-- Concrete instance of the second half of `c10_key_matching`: the entry
keyed "5" carries the inner id 999, yet is applied to live window 5. -/
theorem c10_key_matching_witness :
    pyInt "5" = some 5
    ∧ restoreEntry [(5, ⟨5, ["_NET_WM_WINDOW_TYPE_NORMAL"], [], "t", [0, 0, 10, 10]⟩)]
        "5" [("id", JVal.num 999), ("geometry", JVal.numArr [1, 2, 10, 10]),
             ("state", JVal.strArr [])]
      = WmWindow.move ⟨5, ["_NET_WM_WINDOW_TYPE_NORMAL"], [], "t", [0, 0, 10, 10]⟩
          [1, 2, 10, 10] (some []) :=
  ⟨by decide,
    c10_key_matching.2 [(5, ⟨5, ["_NET_WM_WINDOW_TYPE_NORMAL"], [], "t", [0, 0, 10, 10]⟩)]
      "5" 5 (5, ⟨5, ["_NET_WM_WINDOW_TYPE_NORMAL"], [], "t", [0, 0, 10, 10]⟩)
      [1, 2, 10, 10] [] (JVal.num 999) (by decide) (by decide)⟩
